import Mathlib

set_option maxRecDepth 100000

/-!
Shallow embedding of the conversation controller of the travel-assistant
chat widget (the React `App` component with polling, suggestions and the
contact form), together with the scripted-backend scenarios used to verify
the specification claims. Each definition mirrors one piece of the
component: the `useState` hooks become record fields, the `setInterval`
machinery becomes an explicit timer table with fresh ids, and each handler
becomes a function on the controller state.
-/

namespace TravelWidget

/-- Role of a transcript entry: the `type` field, `user` or `bot`. -/
inductive Role where
  | user
  | bot
deriving DecidableEq

/-- One transcript entry as the widget builds it: `type`, `text` (where a
missing `text` models the JS value `undefined`), the `isLoading` placeholder
flag and the `isError` flag; a JS object without one of the flags models as
`false`. -/
structure Message where
  role : Role
  text : Option String
  isLoading : Bool
  isError : Bool
deriving DecidableEq

/-- Contact data captured by the contact form component. -/
structure Contact where
  name : String
  email : String
deriving DecidableEq

/-- Controller state: the state hooks of the component plus the
`pollingIntervalRef` ref, together with an explicit model of the host
timer table (`activeTimers`: pairs of a timer id and the task id its
callback polls) and a fresh-id counter for `setInterval`. -/
structure AppState where
  messages : List Message
  inputValue : String
  isLoading : Bool
  threadId : Option String
  suggestedReplies : List String
  showContactForm : Bool
  userInfo : Option Contact
  pollingIntervalRef : Option Nat
  activeTimers : List (Nat × String)
  nextTimerId : Nat
deriving DecidableEq

/-- JS `String.prototype.trim`: strip leading and trailing whitespace. -/
def jsTrim (s : String) : String :=
  String.mk (((s.data.dropWhile Char.isWhitespace).reverse.dropWhile Char.isWhitespace).reverse)

/-- JS truthiness of a nullable string: `null` and the empty string are
falsy. -/
def strTruthy : Option String → Bool
  | none => false
  | some s => s != ""

/-- The greeting seeded into the transcript by the mount effect. -/
def welcomeMessage : String :=
  "\nHi! I'm Astra, your AI travel consultant. ✈️🏨🚗\n\nI can help you plan your entire trip at once. Just tell me what you need.\n\n**For example, you can ask:**\n\n*   **For a simple query:**\n    *\"Find me a flight from ICN to CDG next Monday.\"*\n\n*   **For a complex plan:**\n    *\"I'm planning a 4-day trip from Paris to New York next month. Find me a flight, recommend some great value hotels in central Manhattan, show me what activities or exhibitions are on, and I'll also need a car rental from the airport. My total budget is $2000.\"*\n\nHow can I help you get started?\n  "

/-- The user transcript entry appended by a send. -/
def mkUserMessage (text : String) : Message :=
  ⟨Role.user, some text, false, false⟩

/-- The placeholder assistant entry appended by a send, with the
`isLoading` flag set. -/
def thinkingPlaceholder : Message :=
  ⟨Role.bot, some "Astra is thinking...", true, false⟩

/-- The acknowledgement entry appended by the contact-form handler. -/
def ackMessage : Message :=
  ⟨Role.bot, some "Thanks! I've saved your information.", false, false⟩

/-- State after the mount effect: welcome message, four suggested replies,
fresh thread id built from the clock value `now`; the timer ref is still
null and the timer table is empty. Timer ids start at 1 so that a stored
id is always truthy, as browser interval ids are. -/
def initState (now : Nat) : AppState :=
  { messages := [⟨Role.bot, some welcomeMessage, false, false⟩]
    inputValue := ""
    isLoading := false
    threadId := some ("session_" ++ toString now)
    suggestedReplies := ["Search for flights ✈️", "Recommend hotels 🏨", "Rent a car 🚗", "Plan a full trip 🗺️"]
    showContactForm := false
    userInfo := none
    pollingIntervalRef := none
    activeTimers := []
    nextTimerId := 1 }

/-- Embedding of the guarded cancel that opens the polling code: when the
ref holds a handle, remove that timer from the host table (a no-op when the
id is no longer scheduled, exactly as in JS). The ref itself keeps its
value: the code never nulls it. -/
def clearStoredInterval (s : AppState) : AppState :=
  match s.pollingIntervalRef with
  | none => s
  | some h => { s with activeTimers := s.activeTimers.filter (fun p => p.fst != h) }

/-- Embedding of the replace-last transcript update used on every
resolution: drop the last entry of the previous list and append `m`. -/
def resolveLast (m : Message) (msgs : List Message) : List Message :=
  msgs.dropLast ++ [m]

/-- Start of a polling cycle for `taskId`: cancel any timer named by the
ref, then install a fresh interval timer whose callback polls `taskId`,
storing its handle in the ref. The tick callback body is `pollTick`. -/
def pollForResult (taskId : String) (s : AppState) : AppState :=
  let s1 := clearStoredInterval s
  { s1 with
    activeTimers := s1.activeTimers ++ [(s1.nextTimerId, taskId)]
    pollingIntervalRef := some s1.nextTimerId
    nextTimerId := s1.nextTimerId + 1 }

/-- Payload of a status response: the optional `result` object with its
optional `reply` and `error` fields. -/
structure StatusResult where
  reply : Option String
  error : Option String
deriving DecidableEq

/-- One observed outcome of the status request: either a response body
carrying `status`, an optional `result` and an optional `form_to_display`
string, or a rejection (transport error). -/
inductive PollResponse where
  | ok (status : String) (result : Option StatusResult) (formToDisplay : Option String)
  | transportError
deriving DecidableEq

/-- Error detail used by the failed branch: the backend-supplied `error`
field when present and truthy, else the generic fallback. -/
def failedErrorText : Option StatusResult → String
  | some r =>
    match r.error with
    | some e => if e = "" then "Unknown error" else e
    | none => "Unknown error"
  | none => "Unknown error"

/-- The error entry produced by a backend-reported failure. -/
def failedMessage (result : Option StatusResult) : Message :=
  ⟨Role.bot, some ("An error occurred: " ++ failedErrorText result), false, true⟩

/-- The generic error entry produced by a transport error while polling. -/
def pollErrorMessage : Message :=
  ⟨Role.bot, some "Failed to get a response.", false, true⟩

/-- Body of the interval callback installed by `pollForResult`, applied to
one observed status response. It mirrors the JS control flow: the
form-requested side channel fires first; a `completed` status cancels the
timer, clears `isLoading`, hides the form and replaces the last transcript
entry with the reply; a `completed` body without a `result` object throws
on the `reply` access and lands in the catch branch, which behaves like a
transport error; `failed` replaces the last entry with the backend error
detail; any other status (`pending`) changes nothing further. -/
def pollTick (r : PollResponse) (s : AppState) : AppState :=
  match r with
  | PollResponse.transportError =>
    let s1 := clearStoredInterval s
    { s1 with
      isLoading := false
      showContactForm := false
      messages := resolveLast pollErrorMessage s1.messages }
  | PollResponse.ok status result form =>
    let s1 :=
      if form = some "contact_info" ∧ s.userInfo = none then
        { s with showContactForm := true }
      else s
    if status = "completed" then
      match result with
      | some res =>
        let s2 := clearStoredInterval s1
        { s2 with
          isLoading := false
          showContactForm := false
          messages := resolveLast ⟨Role.bot, res.reply, false, false⟩ s2.messages }
      | none =>
        let s2 := clearStoredInterval s1
        { s2 with
          isLoading := false
          showContactForm := false
          messages := resolveLast pollErrorMessage s2.messages }
    else if status = "failed" then
      let s2 := clearStoredInterval s1
      { s2 with
        isLoading := false
        showContactForm := false
        messages := resolveLast (failedMessage result) s2.messages }
    else s1

/-- Guard of the send handler: the send proceeds only when the trimmed text
is non-empty, no task is loading, and the thread id is truthy. -/
def sendAllowed (messageText : String) (s : AppState) : Bool :=
  (jsTrim messageText != "") && !s.isLoading && strTruthy s.threadId

/-- Synchronous prefix of the send handler: one transcript update appending
the user message and the placeholder together, then `isLoading` set, the
input box cleared and the suggestions cleared, all before the submit call
is issued. -/
def sendStart (messageText : String) (s : AppState) : AppState :=
  { s with
    messages := s.messages ++ [mkUserMessage messageText, thinkingPlaceholder]
    isLoading := true
    inputValue := ""
    suggestedReplies := [] }

/-- One observed outcome of the submit call: a 2xx response whose body may
or may not carry a `task_id`, or a rejection whose error object may carry a
`detail` field from the response body. -/
inductive SubmitOutcome where
  | success (taskId : Option String)
  | failure (detail : Option String)
deriving DecidableEq

/-- Error text of the submit catch branch: the `detail` field of the error
response when present and truthy, else the generic connect failure text.
The error thrown on a missing `task_id` has no response, so it always takes
the generic text. -/
def submitErrorText : Option String → String
  | some d => if d = "" then "Could not connect to the assistant." else d
  | none => "Could not connect to the assistant."

/-- The error entry produced by the submit catch branch. -/
def submitErrorMessage (detail : Option String) : Message :=
  ⟨Role.bot, some (submitErrorText detail), false, true⟩

/-- Continuation of the send handler at the resolution of its submit call:
a truthy `task_id` starts the polling cycle; a falsy or missing one throws,
and the catch branch (shared with transport errors) clears `isLoading` and
resolves the placeholder into a single error entry. -/
def handleSubmitOutcome (o : SubmitOutcome) (s : AppState) : AppState :=
  match o with
  | SubmitOutcome.success tid =>
    match tid with
    | some t =>
      if t != "" then pollForResult t s
      else
        { s with
          isLoading := false
          messages := resolveLast (submitErrorMessage none) s.messages }
    | none =>
      { s with
        isLoading := false
        messages := resolveLast (submitErrorMessage none) s.messages }
  | SubmitOutcome.failure detail =>
    { s with
      isLoading := false
      messages := resolveLast (submitErrorMessage detail) s.messages }

/-- The send handler, run to the resolution of its submit call whose
observed outcome is `o`. A failed guard is a silent no-op. -/
def handleSendMessage (messageText : String) (o : SubmitOutcome) (s : AppState) : AppState :=
  if sendAllowed messageText s then handleSubmitOutcome o (sendStart messageText s) else s

/-- The contact-form submit handler: record the contact info, hide the
form, append one acknowledgement entry. -/
def handleFormSubmit (data : Contact) (s : AppState) : AppState :=
  { s with
    userInfo := some data
    showContactForm := false
    messages := s.messages ++ [ackMessage] }

/-- The suggestion click handler: it simply forwards to the send handler. -/
def handleSuggestionSelect (suggestion : String) : SubmitOutcome → AppState → AppState :=
  handleSendMessage suggestion

/-- One externally triggered controller step: a user send (with the
observed submit outcome), one poll-timer tick (with the observed status
response), a contact-form submission, or a suggestion click. -/
inductive Op where
  | send (messageText : String) (o : SubmitOutcome)
  | tick (r : PollResponse)
  | formSubmit (data : Contact)
  | suggestion (text : String) (o : SubmitOutcome)

/-- Apply one controller step. -/
def applyOp : Op → AppState → AppState
  | Op.send t o, s => handleSendMessage t o s
  | Op.tick r, s => pollTick r s
  | Op.formSubmit d, s => handleFormSubmit d s
  | Op.suggestion t o, s => handleSuggestionSelect t o s

/-- Fold a scripted sequence of status responses through the poll
callback. -/
def runPolls (rs : List PollResponse) (s : AppState) : AppState :=
  rs.foldl (fun s r => pollTick r s) s

/-- A plain pending status response: no payload, no form signal. -/
def pendingResp : PollResponse := PollResponse.ok "pending" none none

/-- Scripted round trip: a valid send whose submit returns `taskId`, then
`n` pending polls, then a completed response with reply `x`. -/
def roundTripRun (s : AppState) (t taskId x : String) (n : Nat) : AppState :=
  runPolls (List.replicate n pendingResp ++ [PollResponse.ok "completed" (some ⟨some x, none⟩) none])
    (handleSendMessage t (SubmitOutcome.success (some taskId)) s)

/-- Well-formed timer table: every scheduled timer is the one named by the
ref. -/
def TimersWF (s : AppState) : Prop :=
  ∀ p ∈ s.activeTimers, some p.fst = s.pollingIntervalRef

instance (s : AppState) : Decidable (TimersWF s) :=
  List.decidableBAll _ s.activeTimers

/-- Single-flight timer invariant: all scheduled timers are the one named
by the ref and there is at most one of them. -/
def timerInv (s : AppState) : Prop :=
  TimersWF s ∧ s.activeTimers.length ≤ 1

instance (s : AppState) : Decidable (timerInv s) :=
  instDecidableAnd

/-- Status responses on which the poll callback resolves the pending turn:
a transport error, a completed status or a failed status. -/
def isResolving : PollResponse → Bool
  | PollResponse.transportError => true
  | PollResponse.ok status _ _ => status == "completed" || status == "failed"

/-- The transcript entry a resolving response installs as the new last
entry. -/
def resolutionMessage : PollResponse → Message
  | PollResponse.transportError => pollErrorMessage
  | PollResponse.ok status result _ =>
    if status = "completed" then
      match result with
      | some res => ⟨Role.bot, res.reply, false, false⟩
      | none => pollErrorMessage
    else failedMessage result

/-! Helper lemmas about the cancel step and the poll callback. -/

theorem clearStoredInterval_messages (s : AppState) :
    (clearStoredInterval s).messages = s.messages := by
  unfold clearStoredInterval
  cases s.pollingIntervalRef <;> rfl

theorem clearStoredInterval_isLoading (s : AppState) :
    (clearStoredInterval s).isLoading = s.isLoading := by
  unfold clearStoredInterval
  cases s.pollingIntervalRef <;> rfl

theorem clearStored_timers_nil (s : AppState) (h : TimersWF s) :
    (clearStoredInterval s).activeTimers = [] := by
  unfold clearStoredInterval
  cases hp : s.pollingIntervalRef with
  | none =>
    refine List.eq_nil_iff_forall_not_mem.mpr ?_
    intro p hpm
    have h2 := h p hpm
    rw [hp] at h2
    exact Option.noConfusion h2
  | some h0 =>
    refine List.filter_eq_nil_iff.mpr ?_
    intro p hpm
    have h2 := h p hpm
    rw [hp] at h2
    have h3 : p.fst = h0 := Option.some.inj h2
    simp [h3]

/-- Resolving responses change the transcript by exactly the replace-last
update, clear the loading flag and hide the form; this characterizes the
completed branch, the failed branch and the catch branch at once. The
timer table is the one left by the cancel step. -/
theorem pollTick_resolving (r : PollResponse) (s : AppState) (hr : isResolving r = true) :
    pollTick r s =
      { clearStoredInterval s with
        isLoading := false
        showContactForm := false
        messages := resolveLast (resolutionMessage r) s.messages } := by
  obtain ⟨m, iv, il, tid, sr, scf, ui, pir, tms, nt⟩ := s
  cases r with
  | transportError => cases pir <;> rfl
  | ok status result form =>
    simp only [isResolving] at hr
    by_cases hc : status = "completed"
    · subst hc
      by_cases hf : form = some "contact_info" ∧ ui = none
      · cases result <;> cases pir <;>
          simp [pollTick, resolutionMessage, clearStoredInterval, hf]
      · cases result <;> cases pir <;>
          simp [pollTick, resolutionMessage, clearStoredInterval, hf]
    · have hfail : status = "failed" := by
        rcases Bool.or_eq_true_iff.mp hr with h1 | h1
        · exact absurd (beq_iff_eq.mp h1) hc
        · exact beq_iff_eq.mp h1
      subst hfail
      by_cases hf : form = some "contact_info" ∧ ui = none
      · cases pir <;> simp [pollTick, resolutionMessage, clearStoredInterval, hf]
      · cases pir <;> simp [pollTick, resolutionMessage, clearStoredInterval, hf]

/-- Pending responses without a form signal change nothing. -/
theorem pollTick_pending (s : AppState) : pollTick pendingResp s = s := by
  obtain ⟨m, iv, il, tid, sr, scf, ui, pir, tms, nt⟩ := s
  simp [pollTick, pendingResp]

theorem runPolls_replicate_pending (n : Nat) (s : AppState) :
    runPolls (List.replicate n pendingResp) s = s := by
  induction n generalizing s with
  | zero => rfl
  | succ k ih =>
    rw [List.replicate_succ]
    show runPolls (List.replicate k pendingResp) (pollTick pendingResp s) = s
    rw [pollTick_pending]
    exact ih s

theorem runPolls_append (l1 l2 : List PollResponse) (s : AppState) :
    runPolls (l1 ++ l2) s = runPolls l2 (runPolls l1 s) :=
  List.foldl_append _ _ l1 l2

theorem pollForResult_eq (taskId : String) (s : AppState) (h : TimersWF s) :
    pollForResult taskId s =
      { s with
        activeTimers := [(s.nextTimerId, taskId)]
        pollingIntervalRef := some s.nextTimerId
        nextTimerId := s.nextTimerId + 1 } := by
  have hnil := clearStored_timers_nil s h
  obtain ⟨m, iv, il, tid, sr, scf, ui, pir, tms, nt⟩ := s
  cases pir with
  | none =>
    have htms : tms = [] := hnil
    subst htms
    rfl
  | some h0 =>
    have htms : tms.filter (fun p => p.fst != h0) = [] := hnil
    simp [pollForResult, clearStoredInterval, htms]

theorem timerInv_of_nil (s : AppState) (h : s.activeTimers = []) : timerInv s := by
  constructor
  · intro p hp
    rw [h] at hp
    exact absurd hp (List.not_mem_nil p)
  · rw [h]
    simp

/-- A non-resolving tick (any status other than completed and failed) may
set the form flag but changes nothing else. -/
theorem pollTick_nonresolving_state (r : PollResponse) (s : AppState)
    (hr : isResolving r = false) :
    (pollTick r s).activeTimers = s.activeTimers ∧
    (pollTick r s).pollingIntervalRef = s.pollingIntervalRef ∧
    (pollTick r s).messages = s.messages ∧
    (pollTick r s).isLoading = s.isLoading ∧
    (pollTick r s).nextTimerId = s.nextTimerId := by
  cases r with
  | transportError => simp [isResolving] at hr
  | ok status result form =>
    simp only [isResolving, Bool.or_eq_false_iff, beq_eq_false_iff_ne] at hr
    by_cases hf : form = some "contact_info" ∧ s.userInfo = none <;>
      simp [pollTick, hf, hr.1, hr.2]

theorem timerInv_pollForResult (taskId : String) (s : AppState) (h : TimersWF s) :
    timerInv (pollForResult taskId s) := by
  rw [pollForResult_eq taskId s h]
  constructor
  · intro p hp
    simp only [List.mem_singleton] at hp
    subst hp
    rfl
  · simp

theorem timerInv_send (t : String) (o : SubmitOutcome) (s : AppState) (h : timerInv s) :
    timerInv (handleSendMessage t o s) := by
  unfold handleSendMessage
  by_cases hg : sendAllowed t s = true
  · rw [if_pos hg]
    have h1 : timerInv (sendStart t s) := h
    cases o with
    | success tid =>
      cases tid with
      | none => exact h1
      | some t2 =>
        cases ht2 : (t2 != "") with
        | true =>
          simp only [handleSubmitOutcome, ht2, if_true]
          exact timerInv_pollForResult t2 (sendStart t s) h1.1
        | false =>
          simp only [handleSubmitOutcome, ht2, Bool.false_eq_true, if_false]
          exact h1
    | failure d => exact h1
  · rw [if_neg hg]
    exact h

theorem timerInv_applyOp (op : Op) (s : AppState) (h : timerInv s) :
    timerInv (applyOp op s) := by
  cases op with
  | send t o => exact timerInv_send t o s h
  | suggestion t o => exact timerInv_send t o s h
  | formSubmit d => exact h
  | tick r =>
    show timerInv (pollTick r s)
    cases hr : isResolving r with
    | true =>
      refine timerInv_of_nil _ ?_
      rw [pollTick_resolving r s hr]
      exact clearStored_timers_nil s h.1
    | false =>
      have hf := pollTick_nonresolving_state r s hr
      constructor
      · intro p hp
        rw [hf.1] at hp
        rw [hf.2.1]
        exact h.1 p hp
      · rw [hf.1]
        exact h.2

/-! Claim theorems. -/

/-- C2: a send whose text is empty after trimming, or issued while a task
is loading, or issued while the session id is absent, is a silent no-op:
the whole controller state is unchanged and no error is raised. -/
theorem send_precondition_violation_noop (t : String) (o : SubmitOutcome) (s : AppState)
    (h : jsTrim t = "" ∨ s.isLoading = true ∨ s.threadId = none) :
    handleSendMessage t o s = s := by
  have hguard : sendAllowed t s = false := by
    unfold sendAllowed strTruthy
    rcases h with h | h | h
    · simp [h]
    · simp [h]
    · simp [h]
  simp [handleSendMessage, hguard]

/-- Witness for C2 at a concrete whitespace input. -/
theorem send_precondition_violation_noop_witness :
    handleSendMessage "   " (SubmitOutcome.success (some "t1")) (initState 0) = initState 0 :=
  send_precondition_violation_noop "   " (SubmitOutcome.success (some "t1")) (initState 0)
    (Or.inl (by decide))

/-- C9: the suggestion click handler is extensionally the send handler. -/
theorem suggestion_select_eq_send (t : String) (o : SubmitOutcome) (s : AppState) :
    handleSuggestionSelect t o s = handleSendMessage t o s := rfl

/-- C7: a valid send appends the user message and the placeholder in one
transcript update, sets the loading flag, clears the suggestions, and only
then hands the state to the submit continuation; the transcript never
shows the user message alone or a duplicate placeholder. -/
theorem send_optimistic_update (t : String) (o : SubmitOutcome) (s : AppState)
    (h : sendAllowed t s = true) :
    (sendStart t s).messages = s.messages ++ [mkUserMessage t, thinkingPlaceholder] ∧
    (sendStart t s).isLoading = true ∧
    (sendStart t s).suggestedReplies = [] ∧
    handleSendMessage t o s = handleSubmitOutcome o (sendStart t s) := by
  refine ⟨rfl, rfl, rfl, ?_⟩
  simp [handleSendMessage, h]

/-- C1: a valid send from an idle state whose submit call returns a task
id, followed by finitely many pending polls and then a completed poll with
reply `x`, ends with the last transcript entry being the assistant message
`x` (neither a placeholder nor an error), the poll timer cancelled, and
the loading flag cleared. -/
theorem round_trip_completed (s : AppState) (t taskId x : String) (n : Nat)
    (hs : sendAllowed t s = true) (hw : TimersWF s) (htk : taskId ≠ "") :
    (roundTripRun s t taskId x n).messages.getLast? =
        some ⟨Role.bot, some x, false, false⟩ ∧
    (roundTripRun s t taskId x n).isLoading = false ∧
    (roundTripRun s t taskId x n).activeTimers = [] := by
  have hbne : (taskId != "") = true := bne_iff_ne.mpr htk
  have hw2 : TimersWF (sendStart t s) := hw
  have hsend : handleSendMessage t (SubmitOutcome.success (some taskId)) s =
      pollForResult taskId (sendStart t s) := by
    simp only [handleSendMessage, hs, if_true, handleSubmitOutcome, hbne]
  have hpoll := pollForResult_eq taskId (sendStart t s) hw2
  have hrw : TimersWF
      { sendStart t s with
        activeTimers := [((sendStart t s).nextTimerId, taskId)]
        pollingIntervalRef := some (sendStart t s).nextTimerId
        nextTimerId := (sendStart t s).nextTimerId + 1 } := by
    intro p hp
    simp only [List.mem_singleton] at hp
    subst hp
    rfl
  have hrun : roundTripRun s t taskId x n =
      pollTick (PollResponse.ok "completed" (some ⟨some x, none⟩) none)
        (pollForResult taskId (sendStart t s)) := by
    unfold roundTripRun
    rw [hsend, runPolls_append, runPolls_replicate_pending]
    rfl
  rw [hrun, hpoll,
    pollTick_resolving (PollResponse.ok "completed" (some ⟨some x, none⟩) none) _ (by rfl)]
  refine ⟨?_, rfl, ?_⟩
  · simp [resolveLast, resolutionMessage, List.getLast?_concat]
  · exact clearStored_timers_nil _ hrw

/-- Witness for C1: the scripted round trip of the specification, from the
initial state with two pending polls. -/
theorem round_trip_completed_witness :
    (roundTripRun (initState 0) "hi" "t1" "X" 2).messages.getLast? =
        some ⟨Role.bot, some "X", false, false⟩ ∧
    (roundTripRun (initState 0) "hi" "t1" "X" 2).isLoading = false ∧
    (roundTripRun (initState 0) "hi" "t1" "X" 2).activeTimers = [] :=
  round_trip_completed (initState 0) "hi" "t1" "X" 2 (by decide) (by decide) (by decide)

/-- C3: the single-flight timer invariant (every scheduled timer is the one
named by the ref and there is at most one) is preserved by every controller
step and holds initially, and starting a polling cycle first cancels any
stored timer before installing exactly one fresh timer, so timers never
stack. -/
theorem timers_never_stack (s : AppState) (op : Op) (taskId : String) (now : Nat)
    (h : timerInv s) :
    timerInv (applyOp op s) ∧
    (pollForResult taskId s).activeTimers = [(s.nextTimerId, taskId)] ∧
    timerInv (initState now) := by
  refine ⟨timerInv_applyOp op s h, ?_, timerInv_of_nil _ rfl⟩
  rw [pollForResult_eq taskId s h.1]

/-- Witness for C3 at the initial state with one pending tick. -/
theorem timers_never_stack_witness :
    timerInv (applyOp (Op.tick pendingResp) (initState 0)) ∧
    (pollForResult "t1" (initState 0)).activeTimers = [((initState 0).nextTimerId, "t1")] ∧
    timerInv (initState 5) :=
  timers_never_stack (initState 0) (Op.tick pendingResp) "t1" 5 (by decide)

/-- Witness for C7 at a concrete send from the initial state. -/
theorem send_optimistic_update_witness :
    (sendStart "hi" (initState 0)).messages =
        (initState 0).messages ++ [mkUserMessage "hi", thinkingPlaceholder] ∧
    (sendStart "hi" (initState 0)).isLoading = true ∧
    (sendStart "hi" (initState 0)).suggestedReplies = [] ∧
    handleSendMessage "hi" (SubmitOutcome.success (some "t1")) (initState 0) =
      handleSubmitOutcome (SubmitOutcome.success (some "t1")) (sendStart "hi" (initState 0)) :=
  send_optimistic_update "hi" (SubmitOutcome.success (some "t1")) (initState 0) (by decide)

/-- C5: a failed status poll and a transport error during polling both
cancel the poll timer, clear the loading flag and replace the last
transcript entry with an error message; the failed-status text carries the
backend error detail when one is present (it appears verbatim inside the
message) and the generic fallback otherwise, while the transport error
uses the generic failed-to-get-a-response text. -/
theorem poll_failure_resolution (s : AppState) (result : Option StatusResult)
    (form : Option String) (hw : TimersWF s) :
    (pollTick (PollResponse.ok "failed" result form) s).activeTimers = [] ∧
    (pollTick (PollResponse.ok "failed" result form) s).isLoading = false ∧
    (pollTick (PollResponse.ok "failed" result form) s).messages.getLast? =
      some (failedMessage result) ∧
    (failedMessage result).text =
      some ("An error occurred: " ++ failedErrorText result) ∧
    (failedMessage result).isError = true ∧
    (∀ res e, result = some res → res.error = some e →
      e.data <:+: ("An error occurred: " ++ failedErrorText result).data) ∧
    (pollTick PollResponse.transportError s).activeTimers = [] ∧
    (pollTick PollResponse.transportError s).isLoading = false ∧
    (pollTick PollResponse.transportError s).messages.getLast? = some pollErrorMessage ∧
    pollErrorMessage.text = some "Failed to get a response." ∧
    pollErrorMessage.isError = true := by
  have h1 := pollTick_resolving (PollResponse.ok "failed" result form) s (by rfl)
  have h2 := pollTick_resolving PollResponse.transportError s (by rfl)
  rw [h1, h2]
  refine ⟨clearStored_timers_nil _ hw, rfl, ?_, rfl, rfl, ?_,
    clearStored_timers_nil _ hw, rfl, ?_, rfl, rfl⟩
  · show (resolveLast (resolutionMessage _) s.messages).getLast? = some (failedMessage result)
    simp [resolveLast, resolutionMessage, List.getLast?_concat]
  · intro res e hres herr
    subst hres
    by_cases he : e = ""
    · subst he
      exact List.nil_infix
    · have het : failedErrorText (some res) = e := by
        simp [failedErrorText, herr, he]
      rw [het]
      refine List.IsSuffix.isInfix ?_
      rw [String.data_append]
      exact List.suffix_append _ _
  · show (resolveLast (resolutionMessage _) s.messages).getLast? = some pollErrorMessage
    simp [resolveLast, resolutionMessage, List.getLast?_concat]

/-- Witness for C5 at the specification scenario: backend detail text. -/
theorem poll_failure_resolution_witness :
    (pollTick (PollResponse.ok "failed" (some ⟨none, some "bad input"⟩) none)
        (initState 0)).activeTimers = [] ∧
    (pollTick (PollResponse.ok "failed" (some ⟨none, some "bad input"⟩) none)
        (initState 0)).isLoading = false ∧
    (pollTick (PollResponse.ok "failed" (some ⟨none, some "bad input"⟩) none)
        (initState 0)).messages.getLast? =
      some (failedMessage (some ⟨none, some "bad input"⟩)) ∧
    (failedMessage (some ⟨none, some "bad input"⟩)).text =
      some ("An error occurred: " ++ failedErrorText (some ⟨none, some "bad input"⟩)) ∧
    (failedMessage (some ⟨none, some "bad input"⟩)).isError = true ∧
    (∀ res e, (some ⟨none, some "bad input"⟩ : Option StatusResult) = some res →
      res.error = some e →
      e.data <:+:
        ("An error occurred: " ++ failedErrorText (some ⟨none, some "bad input"⟩)).data) ∧
    (pollTick PollResponse.transportError (initState 0)).activeTimers = [] ∧
    (pollTick PollResponse.transportError (initState 0)).isLoading = false ∧
    (pollTick PollResponse.transportError (initState 0)).messages.getLast? =
      some pollErrorMessage ∧
    pollErrorMessage.text = some "Failed to get a response." ∧
    pollErrorMessage.isError = true :=
  poll_failure_resolution (initState 0) (some ⟨none, some "bad input"⟩) none (by decide)

/-- Predicate of submit outcomes on which the send handler takes its catch
branch: a rejection, and a 2xx response without a truthy task id. -/
def submitFails : SubmitOutcome → Bool
  | SubmitOutcome.failure _ => true
  | SubmitOutcome.success none => true
  | SubmitOutcome.success (some t) => t == ""

/-- Error text displayed for a failed submit: the response detail on a
rejection carrying one, the generic connect failure text otherwise. -/
def submitFailText : SubmitOutcome → String
  | SubmitOutcome.failure d => submitErrorText d
  | SubmitOutcome.success _ => submitErrorText none

/-- List fact used for the placeholder replacement after a double append. -/
theorem dropLast_append_pair (l : List Message) (a b : Message) :
    (l ++ [a, b]).dropLast = l ++ [a] := by
  rw [show l ++ [a, b] = (l ++ [a]) ++ [b] by simp]
  exact List.dropLast_concat

/-- C6: when the submit call of a valid send fails (rejection, or a
response without a task id), the resulting state differs from the start
state only in the transcript (the user message plus exactly one error
entry in place of the placeholder), the cleared input box, the cleared
suggestions and the cleared loading flag; in particular the timer table,
the timer ref and the fresh-timer counter are untouched, so no polling
timer is ever created, and no retry happens. -/
theorem submit_failure_resolution (t : String) (o : SubmitOutcome) (s : AppState)
    (hs : sendAllowed t s = true) (hf : submitFails o = true) :
    handleSendMessage t o s =
      { s with
        messages := s.messages ++
          [mkUserMessage t, ⟨Role.bot, some (submitFailText o), false, true⟩]
        isLoading := false
        inputValue := ""
        suggestedReplies := [] } := by
  rw [handleSendMessage, if_pos hs]
  cases o with
  | failure d =>
    show { sendStart t s with
        isLoading := false
        messages := resolveLast (submitErrorMessage d) (sendStart t s).messages } = _
    simp [sendStart, resolveLast, submitErrorMessage, submitFailText, dropLast_append_pair]
  | success tid =>
    cases tid with
    | none =>
      show { sendStart t s with
          isLoading := false
          messages := resolveLast (submitErrorMessage none) (sendStart t s).messages } = _
      simp [sendStart, resolveLast, submitErrorMessage, submitFailText, dropLast_append_pair]
    | some t2 =>
      have ht2 : t2 = "" := by
        simpa [submitFails] using hf
      subst ht2
      show { sendStart t s with
          isLoading := false
          messages := resolveLast (submitErrorMessage none) (sendStart t s).messages } = _
      simp [sendStart, resolveLast, submitErrorMessage, submitFailText, dropLast_append_pair]

/-- Witness for C6 at a concrete rejected submit. -/
theorem submit_failure_resolution_witness :
    handleSendMessage "hi" (SubmitOutcome.failure (some "boom")) (initState 0) =
      { initState 0 with
        messages := (initState 0).messages ++
          [mkUserMessage "hi",
           ⟨Role.bot, some (submitFailText (SubmitOutcome.failure (some "boom"))), false, true⟩]
        isLoading := false
        inputValue := ""
        suggestedReplies := [] } :=
  submit_failure_resolution "hi" (SubmitOutcome.failure (some "boom")) (initState 0)
    (by decide) (by decide)

theorem resolveLast_length (m : Message) (l : List Message) (h : l ≠ []) :
    (resolveLast m l).length = l.length := by
  unfold resolveLast
  rw [List.length_append, List.length_dropLast]
  have : 0 < l.length := List.length_pos.mpr h
  simp
  omega

theorem resolveLast_length_append_pair (m : Message) (l : List Message) (a b : Message) :
    (resolveLast m (l ++ [a, b])).length = l.length + 2 := by
  unfold resolveLast
  rw [dropLast_append_pair]
  simp

theorem pollForResult_messages (taskId : String) (s : AppState) :
    (pollForResult taskId s).messages = s.messages := by
  show (clearStoredInterval s).messages = s.messages
  exact clearStoredInterval_messages s

theorem send_messages_length (t : String) (o : SubmitOutcome) (s : AppState) :
    s.messages.length ≤ (handleSendMessage t o s).messages.length := by
  unfold handleSendMessage
  by_cases hg : sendAllowed t s = true
  · rw [if_pos hg]
    cases o with
    | failure d =>
      show s.messages.length ≤
        (resolveLast (submitErrorMessage d) (sendStart t s).messages).length
      rw [show (sendStart t s).messages = s.messages ++ [mkUserMessage t, thinkingPlaceholder] from rfl,
        resolveLast_length_append_pair]
      omega
    | success tid =>
      cases tid with
      | none =>
        show s.messages.length ≤
          (resolveLast (submitErrorMessage none) (sendStart t s).messages).length
        rw [show (sendStart t s).messages = s.messages ++ [mkUserMessage t, thinkingPlaceholder] from rfl,
          resolveLast_length_append_pair]
        omega
      | some t2 =>
        cases ht2 : (t2 != "") with
        | true =>
          simp only [handleSubmitOutcome, ht2, if_true]
          rw [pollForResult_messages]
          show s.messages.length ≤ (s.messages ++ [mkUserMessage t, thinkingPlaceholder]).length
          simp
        | false =>
          simp only [handleSubmitOutcome, ht2, Bool.false_eq_true, if_false]
          show s.messages.length ≤
            (resolveLast (submitErrorMessage none) (sendStart t s).messages).length
          rw [show (sendStart t s).messages = s.messages ++ [mkUserMessage t, thinkingPlaceholder] from rfl,
            resolveLast_length_append_pair]
          omega
  · rw [if_neg hg]

/-- Scripted scenario for the frame analysis of a resolution: a valid send,
then a contact-form submission while the task is pending (appending the
acknowledgement after the placeholder), leaving four transcript entries. -/
def formAckPendingState : AppState :=
  handleFormSubmit ⟨"Ann", "ann@example.com"⟩
    (handleSendMessage "hi" (SubmitOutcome.success (some "t1")) (initState 0))

/-- The scenario above after the completed poll response arrives. -/
def formAckResolvedState : AppState :=
  pollTick (PollResponse.ok "completed" (some ⟨some "X", none⟩) none) formAckPendingState

/-- C4 counterexample: with the acknowledgement entry sitting after the
placeholder, the completed resolution deletes the acknowledgement (the
last entry) and leaves the placeholder in the transcript, so it is not the
placeholder that is replaced and the entry appended after it is not
preserved. -/
theorem resolution_after_form_ack_cex :
    formAckPendingState.messages =
      [⟨Role.bot, some welcomeMessage, false, false⟩, mkUserMessage "hi",
       thinkingPlaceholder, ackMessage] ∧
    formAckResolvedState.messages =
      [⟨Role.bot, some welcomeMessage, false, false⟩, mkUserMessage "hi",
       thinkingPlaceholder, ⟨Role.bot, some "X", false, false⟩] ∧
    thinkingPlaceholder ∈ formAckResolvedState.messages ∧
    ackMessage ∉ formAckResolvedState.messages := by decide

/-- C4 amended: every resolution of a pending task replaces exactly the
last transcript entry in place, one for one: all entries except the last
are unchanged and the resolved entry becomes the new last entry. When the
placeholder is still the last entry this is exactly placeholder
replacement; an entry appended after the placeholder is itself the one
replaced. -/
theorem resolution_replaces_last (r : PollResponse) (s : AppState)
    (hr : isResolving r = true) (hne : s.messages ≠ []) :
    (pollTick r s).messages = s.messages.dropLast ++ [resolutionMessage r] ∧
    (pollTick r s).messages.dropLast = s.messages.dropLast ∧
    (pollTick r s).messages.length = s.messages.length := by
  rw [pollTick_resolving r s hr]
  refine ⟨rfl, ?_, ?_⟩
  · show (resolveLast (resolutionMessage r) s.messages).dropLast = s.messages.dropLast
    unfold resolveLast
    exact List.dropLast_concat
  · show (resolveLast (resolutionMessage r) s.messages).length = s.messages.length
    exact resolveLast_length _ _ hne

/-- Witness for the amended C4 at a concrete transport error. -/
theorem resolution_replaces_last_witness :
    (pollTick PollResponse.transportError (initState 0)).messages =
      (initState 0).messages.dropLast ++ [resolutionMessage PollResponse.transportError] ∧
    (pollTick PollResponse.transportError (initState 0)).messages.dropLast =
      (initState 0).messages.dropLast ∧
    (pollTick PollResponse.transportError (initState 0)).messages.length =
      (initState 0).messages.length :=
  resolution_replaces_last PollResponse.transportError (initState 0) (by decide) (by decide)

/-- C10: resolving a pending task swaps one entry for one, leaving the
transcript length unchanged, and no controller step ever decreases the
number of transcript entries. -/
theorem transcript_length_never_decreases (op : Op) (r : PollResponse) (s : AppState)
    (hr : isResolving r = true) (hne : s.messages ≠ []) :
    (pollTick r s).messages.length = s.messages.length ∧
    s.messages.length ≤ (applyOp op s).messages.length := by
  constructor
  · rw [pollTick_resolving r s hr]
    show (resolveLast (resolutionMessage r) s.messages).length = s.messages.length
    exact resolveLast_length _ _ hne
  · cases op with
    | send t o => exact send_messages_length t o s
    | suggestion t o => exact send_messages_length t o s
    | formSubmit d =>
      show s.messages.length ≤ (s.messages ++ [ackMessage]).length
      simp
    | tick r2 =>
      show s.messages.length ≤ (pollTick r2 s).messages.length
      cases hr2 : isResolving r2 with
      | true =>
        rw [pollTick_resolving r2 s hr2]
        show s.messages.length ≤ (resolveLast (resolutionMessage r2) s.messages).length
        rw [resolveLast_length _ _ hne]
      | false =>
        rw [(pollTick_nonresolving_state r2 s hr2).2.2.1]

/-- Witness for C10 at a concrete state and step. -/
theorem transcript_length_never_decreases_witness :
    (pollTick PollResponse.transportError (initState 0)).messages.length =
      (initState 0).messages.length ∧
    (initState 0).messages.length ≤
      (applyOp (Op.formSubmit ⟨"Ann", "ann@example.com"⟩) (initState 0)).messages.length :=
  transcript_length_never_decreases (Op.formSubmit ⟨"Ann", "ann@example.com"⟩)
    PollResponse.transportError (initState 0) (by decide) (by decide)

/-- C8: a poll response carrying the contact-info form signal while no
contact info is captured turns the form flag on; any resolving response
(completed, failed or transport error) turns it off; and the form submit
handler records the contact info, turns the flag off and appends exactly
one acknowledgement entry while leaving every other field — in particular
the timer table, the timer ref and the loading flag — untouched. -/
theorem form_flag_lifecycle (s : AppState) (status : String)
    (result : Option StatusResult) (r : PollResponse) (d : Contact)
    (hui : s.userInfo = none) (hp1 : status ≠ "completed") (hp2 : status ≠ "failed")
    (hr : isResolving r = true) :
    (pollTick (PollResponse.ok status result (some "contact_info")) s).showContactForm = true ∧
    (pollTick r s).showContactForm = false ∧
    handleFormSubmit d s =
      { s with
        userInfo := some d
        showContactForm := false
        messages := s.messages ++ [ackMessage] } := by
  refine ⟨?_, ?_, rfl⟩
  · simp [pollTick, hui, hp1, hp2]
  · rw [pollTick_resolving r s hr]

/-- Witness for C8 at the initial state. -/
theorem form_flag_lifecycle_witness :
    (pollTick (PollResponse.ok "pending" none (some "contact_info"))
        (initState 0)).showContactForm = true ∧
    (pollTick PollResponse.transportError (initState 0)).showContactForm = false ∧
    handleFormSubmit ⟨"Ann", "ann@example.com"⟩ (initState 0) =
      { initState 0 with
        userInfo := some ⟨"Ann", "ann@example.com"⟩
        showContactForm := false
        messages := (initState 0).messages ++ [ackMessage] } :=
  form_flag_lifecycle (initState 0) "pending" none PollResponse.transportError
    ⟨"Ann", "ann@example.com"⟩ (by decide) (by decide) (by decide) (by decide)

end TravelWidget
